import Mathlib

/-!
Shallow embedding of the drive-organizer frontend scaffold.

The embedded code consists of:
* the mock authentication context (`AuthContext.tsx`): the `AuthProvider`
  mount effect that signs in a mock user after a 1000 ms timer, and the
  `signInWithGoogle`, `logout` and `getToken` operations;
* the dashboard route (`routes/index.tsx`): its react-query `queryFn`,
  which returns a hard-coded stats record, and the arithmetic the
  component performs on that record when rendering;
* the login route guard (`routes/login.tsx`) and the index route guard;
* the configuration surfaces of the snapshot: the root `.env.example`
  and the `docker-compose.yml` frontend/backend/redis services.

Effectful frontend operations are embedded as pure functions returning an
`EffectResult`: the `Except` value records success or rejection of the
underlying promise, and `networkCalls` records every outgoing HTTP request
the operation performs (empty for all of the mocked code paths, which
never touch the network).
-/

namespace DriveOrganizer

/-- The mock user record built inside `AuthContext.tsx` (both in the
`AuthProvider` mount effect and in `signInWithGoogle`). -/
structure MockUser where
  uid : String
  email : String
  displayName : String
  photoURL : String
deriving DecidableEq, Repr

/-- The literal mock user from the source. -/
def mockUser : MockUser :=
  { uid := "mock-uid"
  , email := "user@example.com"
  , displayName := "Test User"
  , photoURL := "" }

/-- The `AuthProvider` component state: `useState<User | null>(null)` and
`useState(true)` for the loading flag. -/
structure AuthState where
  user : Option MockUser
  isLoading : Bool
deriving DecidableEq, Repr

/-- Initial provider state: no user, loading. -/
def initialAuthState : AuthState := { user := none, isLoading := true }

/-- Result of an effectful frontend operation: the settled promise value
(`Except.error` would be a rejection) together with the list of network
requests the operation issued. -/
structure EffectResult (α : Type) where
  result : Except String α
  networkCalls : List String
deriving Repr

/-- Operation `signInWithGoogle` from `AuthContext.tsx`: builds the mock user,
calls `setUser(mockUser)` and resolves with it.  It consults no prior
state, never rejects, and issues no network request. -/
def signInWithGoogle (s : AuthState) :
    EffectResult (AuthState × Option MockUser) :=
  { result := Except.ok ({ s with user := some mockUser }, some mockUser)
  , networkCalls := [] }

/-- Operation `logout` from `AuthContext.tsx`: `setUser(null)`; never rejects,
no network request. -/
def logout (s : AuthState) : EffectResult AuthState :=
  { result := Except.ok { s with user := none }
  , networkCalls := [] }

/-- Operation `getToken` from `AuthContext.tsx`: `if (!user) return null;
return 'mock-token'`. -/
def getToken (s : AuthState) : EffectResult (Option String) :=
  { result := Except.ok
      (match s.user with
       | none => none
       | some _ => some "mock-token")
  , networkCalls := [] }

/-- The `setTimeout` delay (milliseconds) of the `AuthProvider` mount
effect: the literal `1000` in the source. -/
def authProviderMockLoginDelayMs : Nat := 1000

/-- The timer callback of the `AuthProvider` mount effect:
`setUser(mockUser); setIsLoading(false)`. -/
def mockLoginCallback (s : AuthState) : AuthState :=
  { s with user := some mockUser, isLoading := false }

/-- Provider state `t` milliseconds after mount: the mount effect's
`setTimeout` callback has fired exactly when the fixed delay has
elapsed. -/
def authProviderStateAt (t : Nat) : AuthState :=
  if t < authProviderMockLoginDelayMs then initialAuthState
  else mockLoginCallback initialAuthState

/-- A category row of the hard-coded dashboard stats. -/
structure Category where
  name : String
  count : Nat
deriving DecidableEq, Repr

/-- A recent-activity row of the hard-coded dashboard stats. -/
structure Activity where
  date : String
  count : Nat
deriving DecidableEq, Repr

/-- The `data` payload shape of the dashboard stats query. -/
structure DashboardStats where
  totalImages : Nat
  analyzedImages : Nat
  categories : List Category
  recentActivity : List Activity
deriving DecidableEq, Repr

/-- The `{ data: ... }` wrapper the queryFn returns. -/
structure QueryResponse where
  data : DashboardStats
deriving DecidableEq, Repr

/-- The literal stats record from the dashboard `queryFn` in
`routes/index.tsx`. -/
def dashboardStatsData : DashboardStats :=
  { totalImages := 1245
  , analyzedImages := 980
  , categories :=
      [ { name := "Landscapes", count := 320 }
      , { name := "People", count := 280 }
      , { name := "Food", count := 150 }
      , { name := "Buildings", count := 110 }
      , { name := "Other", count := 120 } ]
  , recentActivity :=
      [ { date := "2023-01-01", count := 12 }
      , { date := "2023-01-02", count := 8 }
      , { date := "2023-01-03", count := 15 }
      , { date := "2023-01-04", count := 22 }
      , { date := "2023-01-05", count := 18 }
      , { date := "2023-01-06", count := 30 }
      , { date := "2023-01-07", count := 25 } ] }

/-- The full response object the queryFn resolves with. -/
def dashboardQueryResponse : QueryResponse := { data := dashboardStatsData }

/-- The dashboard `queryFn`: an async closure that reads nothing and
returns the literal record.  It is parametric in an arbitrary external
world `w` (environment, backend, network state), which it ignores; it
resolves successfully and performs no network request. -/
def dashboardQueryFn {σ : Type} (_w : σ) : EffectResult QueryResponse :=
  { result := Except.ok dashboardQueryResponse
  , networkCalls := [] }

/-- JavaScript `Math.round` on an exact rational: round half toward
positive infinity. -/
def mathRound (q : ℚ) : ℤ := ⌊q + 1 / 2⌋

/-- The values the `Dashboard` component computes from a query response
when rendering: the three stat numbers, the rounded percentage, and per
category its label, count and bar width `(count / analyzedImages) * 100`. -/
structure DashboardRender where
  totalImages : Nat
  analyzedImages : Nat
  percentOfTotal : ℤ
  numCategories : Nat
  categoryLines : List (String × Nat × ℚ)
deriving DecidableEq, Repr

/-- The rendering arithmetic of the `Dashboard` component, as a pure
function of the query response it received. -/
def renderDashboard (r : QueryResponse) : DashboardRender :=
  { totalImages := r.data.totalImages
  , analyzedImages := r.data.analyzedImages
  , percentOfTotal :=
      mathRound (((r.data.analyzedImages : ℚ) / (r.data.totalImages : ℚ)) * 100)
  , numCategories := r.data.categories.length
  , categoryLines :=
      r.data.categories.map (fun c =>
        (c.name, c.count,
          ((c.count : ℚ) / (r.data.analyzedImages : ℚ)) * 100)) }

/-- The router context handed to `beforeLoad`: `context.auth` is optional
(`auth?`), and inside it `user` is nullable. -/
structure RouterAuthCtx where
  auth : Option AuthState
deriving DecidableEq, Repr

/-- Outcome of a `beforeLoad` guard: either the route proceeds to load,
or the guard throws `redirect({ to })`. -/
inductive BeforeLoadResult where
  | proceed : BeforeLoadResult
  | redirectTo : String → BeforeLoadResult
deriving DecidableEq, Repr

/-- Index route guard (`routes/index.tsx`):
`if (!context.auth?.user) throw redirect({ to: '/login' })`. -/
def indexBeforeLoad (ctx : RouterAuthCtx) : BeforeLoadResult :=
  match ctx.auth with
  | none => BeforeLoadResult.redirectTo "/login"
  | some a =>
    match a.user with
    | none => BeforeLoadResult.redirectTo "/login"
    | some _ => BeforeLoadResult.proceed

/-- Login route guard (`routes/login.tsx`):
`if (context.auth?.user) throw redirect({ to: '/' })`. -/
def loginBeforeLoad (ctx : RouterAuthCtx) : BeforeLoadResult :=
  match ctx.auth with
  | none => BeforeLoadResult.proceed
  | some a =>
    match a.user with
    | none => BeforeLoadResult.proceed
    | some _ => BeforeLoadResult.redirectTo "/"

/-- The nullable user visible to a guard through the router context. -/
def ctxUser (ctx : RouterAuthCtx) : Option MockUser :=
  ctx.auth.bind AuthState.user

/-- A value on the right-hand side of a docker-compose `environment`
entry: a literal, a host-environment substitution of a variable, or a
substitution with a default value. -/
inductive ComposeValue where
  | lit : String → ComposeValue
  | hostVar : String → ComposeValue
  | hostVarDefault : String → String → ComposeValue
deriving DecidableEq, Repr

/-- The root `.env.example` template, key/value pairs in file order. -/
def rootEnvExample : List (String × String) :=
  [ ("GOOGLE_CLIENT_ID", "your_client_id")
  , ("GOOGLE_CLIENT_SECRET", "your_client_secret")
  , ("GOOGLE_REDIRECT_URI", "http://localhost:8080")
  , ("AWS_ACCESS_KEY_ID", "your_aws_access_key")
  , ("AWS_SECRET_ACCESS_KEY", "your_aws_secret_key")
  , ("AWS_REGION", "us-west-2")
  , ("GEMINI_API_KEY", "your_gemini_api_key")
  , ("LOG_LEVEL", "INFO")
  , ("BATCH_SIZE", "10")
  , ("MAX_WORKERS", "4")
  , ("TEMP_DIR", "/tmp/drive-organizer")
  , ("WEB_HOST", "0.0.0.0")
  , ("WEB_PORT", "8000")
  , ("DEBUG", "False") ]

/-- The `environment` block of the compose `frontend` service. -/
def composeFrontendEnv : List (String × ComposeValue) :=
  [ ("VITE_API_URL", ComposeValue.lit "http://localhost:8000/api")
  , ("VITE_FIREBASE_API_KEY", ComposeValue.hostVar "FIREBASE_API_KEY")
  , ("VITE_FIREBASE_AUTH_DOMAIN", ComposeValue.hostVar "FIREBASE_AUTH_DOMAIN")
  , ("VITE_FIREBASE_PROJECT_ID", ComposeValue.hostVar "FIREBASE_PROJECT_ID")
  , ("VITE_FIREBASE_STORAGE_BUCKET", ComposeValue.hostVar "FIREBASE_STORAGE_BUCKET")
  , ("VITE_FIREBASE_MESSAGING_SENDER_ID", ComposeValue.hostVar "FIREBASE_MESSAGING_SENDER_ID")
  , ("VITE_FIREBASE_APP_ID", ComposeValue.hostVar "FIREBASE_APP_ID") ]

/-- The `environment` block of the compose `backend` service. -/
def composeBackendEnv : List (String × ComposeValue) :=
  [ ("DEBUG", ComposeValue.hostVarDefault "DEBUG" "False")
  , ("REDIS_HOST", ComposeValue.lit "redis")
  , ("REDIS_PORT", ComposeValue.lit "6379")
  , ("REDIS_PASSWORD", ComposeValue.hostVarDefault "REDIS_PASSWORD" "")
  , ("GOOGLE_CLIENT_ID", ComposeValue.hostVar "GOOGLE_CLIENT_ID")
  , ("GOOGLE_CLIENT_SECRET", ComposeValue.hostVar "GOOGLE_CLIENT_SECRET")
  , ("GOOGLE_REDIRECT_URI", ComposeValue.hostVar "GOOGLE_REDIRECT_URI")
  , ("GEMINI_API_KEY", ComposeValue.hostVar "GEMINI_API_KEY")
  , ("FIREBASE_PROJECT_ID", ComposeValue.hostVar "FIREBASE_PROJECT_ID")
  , ("FIREBASE_SERVICE_ACCOUNT", ComposeValue.hostVar "FIREBASE_SERVICE_ACCOUNT") ]

/-- Image and published port of the compose `redis` service. -/
def composeRedisImage : String := "redis:7-alpine"

/-- Port mapping of the compose `redis` service. -/
def composeRedisPorts : List String := ["6379:6379"]

/-- Every environment key named anywhere in the snapshot configuration. -/
def allSnapshotEnvKeys : List String :=
  rootEnvExample.map Prod.fst ++
    composeFrontendEnv.map Prod.fst ++ composeBackendEnv.map Prod.fst

/-- Decide whether the first character list is a prefix of the second. -/
def charsPrefixOf : List Char → List Char → Bool
  | [], _ => true
  | _ :: _, [] => false
  | c :: cs, d :: ds => c == d && charsPrefixOf cs ds

/-- Character-level test that string `k` starts with `p`. -/
def keyStartsWith (p k : String) : Bool := charsPrefixOf p.data k.data

/-- Character-level test that string `s` ends with `p`. -/
def strEndsWith (p s : String) : Bool :=
  charsPrefixOf p.data.reverse s.data.reverse

/-- Keys configuring Google OAuth / Drive API credentials. -/
def isGoogleOAuthKey (k : String) : Bool := keyStartsWith "GOOGLE_" k

/-- Keys configuring Firebase Authentication. -/
def isFirebaseKey (k : String) : Bool :=
  keyStartsWith "FIREBASE_" k || keyStartsWith "VITE_FIREBASE_" k

/-- Keys configuring the Gemini vision API. -/
def isGeminiKey (k : String) : Bool := keyStartsWith "GEMINI_" k

/-- Keys configuring (optional) AWS Rekognition. -/
def isAwsKey (k : String) : Bool := keyStartsWith "AWS_" k

/-- Keys configuring the Redis instance. -/
def isRedisKey (k : String) : Bool := keyStartsWith "REDIS_" k

/-- Plain application/web settings that name no external integration. -/
def isAppSettingKey (k : String) : Bool :=
  ["LOG_LEVEL", "BATCH_SIZE", "MAX_WORKERS", "TEMP_DIR",
   "WEB_HOST", "WEB_PORT", "DEBUG", "VITE_API_URL"].contains k

/-- Claim C1: the dashboard stats queryFn ignores all external state, issues
no network call, and always resolves with the same fixed record (totalImages
1245, analyzedImages 980, the five named categories, seven recent-activity
entries); the rendered dashboard is a function of this constant alone. -/
theorem dashboard_query_constant :
    ∀ (σ₁ σ₂ : Type) (w₁ : σ₁) (w₂ : σ₂),
      dashboardQueryFn w₁ =
        { result := Except.ok dashboardQueryResponse, networkCalls := [] } ∧
      dashboardQueryFn w₁ = dashboardQueryFn w₂ ∧
      (dashboardQueryFn w₁).networkCalls = [] ∧
      dashboardQueryResponse.data.totalImages = 1245 ∧
      dashboardQueryResponse.data.analyzedImages = 980 ∧
      dashboardQueryResponse.data.categories.map Category.name =
        ["Landscapes", "People", "Food", "Buildings", "Other"] ∧
      dashboardQueryResponse.data.recentActivity.length = 7 ∧
      renderDashboard dashboardQueryResponse =
        renderDashboard { data := dashboardStatsData } := by
  intro σ₁ σ₂ w₁ w₂
  exact ⟨rfl, rfl, rfl, rfl, rfl, rfl, rfl, rfl⟩

/-- Claim C2: for every call and from every state, signInWithGoogle sets the
authenticated user to the fixed mock user (uid "mock-uid", email
"user@example.com", displayName "Test User"), resolves with it, and issues
no network request. -/
theorem signInWithGoogle_sets_mock_user :
    ∀ s : AuthState,
      signInWithGoogle s =
        { result := Except.ok ({ s with user := some mockUser }, some mockUser)
        , networkCalls := [] } ∧
      mockUser.uid = "mock-uid" ∧
      mockUser.email = "user@example.com" ∧
      mockUser.displayName = "Test User" := by
  intro s
  exact ⟨rfl, rfl, rfl, rfl⟩

/-- Claim C3: the mock login resolves after a fixed delay: the provider timer
is the constant 1000 ms, before it elapses the state is still the initial
loading state, and once it has elapsed the mock user is signed in and the
loading flag cleared. -/
theorem mock_login_fixed_delay :
    authProviderMockLoginDelayMs = 1000 ∧
    ∀ t : Nat,
      (t < authProviderMockLoginDelayMs →
        authProviderStateAt t = initialAuthState) ∧
      (authProviderMockLoginDelayMs ≤ t →
        authProviderStateAt t = { user := some mockUser, isLoading := false }) := by
  refine ⟨rfl, fun t => ⟨fun h => ?_, fun h => ?_⟩⟩
  · unfold authProviderStateAt
    rw [if_pos h]
  · unfold authProviderStateAt
    rw [if_neg (Nat.not_lt.mpr h)]
    rfl

/-- Witness for C3: the concrete timer boundary, instantiated at 999 ms and
1000 ms. -/
theorem mock_login_fixed_delay_witness :
    authProviderStateAt 999 = initialAuthState ∧
    authProviderStateAt 1000 = { user := some mockUser, isLoading := false } :=
  ⟨(mock_login_fixed_delay.2 999).1 (by decide),
   (mock_login_fixed_delay.2 1000).2 (by decide)⟩

/-- Claim C4: none of the mocked code paths model failure: from every state,
signInWithGoogle, logout and getToken settle successfully (never with an
error value), and so does the dashboard stats queryFn for every external
world. -/
theorem mocked_paths_never_error :
    ∀ s : AuthState,
      (signInWithGoogle s).result.toOption.isSome = true ∧
      (logout s).result.toOption.isSome = true ∧
      (getToken s).result.toOption.isSome = true ∧
      ∀ (σ : Type) (w : σ), (dashboardQueryFn w).result.toOption.isSome = true := by
  intro s
  exact ⟨rfl, rfl, rfl, fun σ w => rfl⟩

/-- Claim C5: the backend base URL is configured through the VITE_API_URL
environment entry, and the only VITE_API_URL value anywhere in the snapshot
configuration is a literal ending in "/api". -/
theorem api_url_configured_with_api_suffix :
    (composeFrontendEnv.filter (fun kv => kv.1 == "VITE_API_URL")).map Prod.snd =
      [ComposeValue.lit "http://localhost:8000/api"] ∧
    strEndsWith "/api" "http://localhost:8000/api" = true ∧
    composeBackendEnv.filter (fun kv => kv.1 == "VITE_API_URL") = [] ∧
    rootEnvExample.filter (fun kv => kv.1 == "VITE_API_URL") = [] := by
  exact ⟨by decide, by decide, by decide, by decide⟩

/-- Claim C6: the snapshot configuration names Google OAuth/Drive
credentials, Firebase settings, a Gemini API key, AWS Rekognition
credentials and a Redis instance (host "redis", port 6379 in the compose
file), and every configuration key belongs to one of these five integration
points or is a plain application setting. -/
theorem config_names_integration_points :
    allSnapshotEnvKeys.any isGoogleOAuthKey = true ∧
    allSnapshotEnvKeys.any isFirebaseKey = true ∧
    allSnapshotEnvKeys.any isGeminiKey = true ∧
    allSnapshotEnvKeys.any isAwsKey = true ∧
    allSnapshotEnvKeys.any isRedisKey = true ∧
    ("REDIS_HOST", ComposeValue.lit "redis") ∈ composeBackendEnv ∧
    ("REDIS_PORT", ComposeValue.lit "6379") ∈ composeBackendEnv ∧
    composeRedisPorts = ["6379:6379"] ∧
    allSnapshotEnvKeys.all (fun k =>
      isGoogleOAuthKey k || isFirebaseKey k || isGeminiKey k ||
        isAwsKey k || isRedisKey k || isAppSettingKey k) = true := by
  refine ⟨by decide, by decide, by decide, by decide, by decide,
    by decide, by decide, rfl, by decide⟩

/-- Claim C7: signInWithGoogle is deterministic: from any two states the
resolved user values are identical, and the user recorded in the resulting
state is the fixed mock user, independent of the prior state. -/
theorem signInWithGoogle_deterministic :
    ∀ s₁ s₂ : AuthState,
      (signInWithGoogle s₁).result.toOption.map Prod.snd =
        (signInWithGoogle s₂).result.toOption.map Prod.snd ∧
      (signInWithGoogle s₁).result.toOption.map (fun r => r.1.user) =
        some (some mockUser) ∧
      (signInWithGoogle s₁).result.toOption.map Prod.snd = some (some mockUser) := by
  intro s₁ s₂
  exact ⟨rfl, rfl, rfl⟩

/-- Claim C8: the route guards are mutually exclusive: whenever the context
user is null the index guard redirects to "/login", whenever it is non-null
the login guard redirects to "/", and no context lets both routes proceed. -/
theorem route_guards_mutually_exclusive :
    ∀ ctx : RouterAuthCtx,
      (ctxUser ctx = none →
        indexBeforeLoad ctx = BeforeLoadResult.redirectTo "/login") ∧
      (ctxUser ctx ≠ none →
        loginBeforeLoad ctx = BeforeLoadResult.redirectTo "/") ∧
      ¬(indexBeforeLoad ctx = BeforeLoadResult.proceed ∧
        loginBeforeLoad ctx = BeforeLoadResult.proceed) := by
  rintro ⟨(_ | ⟨(_ | u), l⟩)⟩
  · exact ⟨fun _ => rfl, fun h => absurd rfl h,
      fun hp => BeforeLoadResult.noConfusion hp.1⟩
  · exact ⟨fun _ => rfl, fun h => absurd rfl h,
      fun hp => BeforeLoadResult.noConfusion hp.1⟩
  · exact ⟨fun h => Option.noConfusion h, fun _ => rfl,
      fun hp => BeforeLoadResult.noConfusion hp.2⟩

/-- Witness for C8: with no signed-in user the index guard redirects to
"/login"; with the mock user signed in the login guard redirects to "/". -/
theorem route_guards_mutually_exclusive_witness :
    indexBeforeLoad { auth := none } = BeforeLoadResult.redirectTo "/login" ∧
    loginBeforeLoad { auth := some { user := some mockUser, isLoading := false } } =
      BeforeLoadResult.redirectTo "/" :=
  ⟨(route_guards_mutually_exclusive { auth := none }).1 rfl,
   (route_guards_mutually_exclusive
      { auth := some { user := some mockUser, isLoading := false } }).2.1
     (fun h => Option.noConfusion h)⟩

/-- Claim C9: getToken resolves with a token exactly when a user is signed
in: null when the user is null, "mock-token" otherwise, and after logout it
resolves with null. -/
theorem getToken_iff_signed_in :
    ∀ s : AuthState,
      ((getToken s).result = Except.ok none ↔ s.user = none) ∧
      (s.user ≠ none →
        (getToken s).result = Except.ok (some "mock-token")) ∧
      (logout s).result.toOption.map (fun s2 => (getToken s2).result) =
        some (Except.ok none) := by
  rintro ⟨(_ | u), l⟩
  · exact ⟨⟨fun _ => rfl, fun _ => rfl⟩, fun h => absurd rfl h, rfl⟩
  · exact ⟨⟨fun h => Option.noConfusion (Except.ok.inj h),
      fun h => Option.noConfusion h⟩, fun _ => rfl, rfl⟩

/-- Witness for C9: getToken at a signed-in state and at the initial
signed-out state. -/
theorem getToken_iff_signed_in_witness :
    (getToken { user := some mockUser, isLoading := false }).result =
      Except.ok (some "mock-token") ∧
    (getToken initialAuthState).result = Except.ok none :=
  ⟨(getToken_iff_signed_in { user := some mockUser, isLoading := false }).2.1
     (fun h => Option.noConfusion h),
   (getToken_iff_signed_in initialAuthState).1.mpr rfl⟩

/-- Claim C10: the seeded dashboard numbers are consistent: the five
category counts sum to analyzedImages (980), the rendered bar widths
count/analyzedImages*100 sum to exactly 100, and the rounded percentage
Math.round((980/1245)*100) renders as 79. -/
theorem dashboard_stats_consistent :
    dashboardStatsData.categories.map Category.count = [320, 280, 150, 110, 120] ∧
    (dashboardStatsData.categories.map Category.count).sum =
      dashboardStatsData.analyzedImages ∧
    ((renderDashboard dashboardQueryResponse).categoryLines.map
      (fun l => l.2.2)).sum = 100 ∧
    (renderDashboard dashboardQueryResponse).percentOfTotal = 79 ∧
    mathRound (((980 : ℚ) / 1245) * 100) = 79 := by
  refine ⟨rfl, rfl, ?_, ?_, ?_⟩
  · simp only [renderDashboard, dashboardQueryResponse, dashboardStatsData,
      List.map_cons, List.map_nil, List.sum_cons, List.sum_nil]
    norm_num
  · simp only [renderDashboard, dashboardQueryResponse, dashboardStatsData,
      mathRound]
    rw [Int.floor_eq_iff]
    norm_num
  · simp only [mathRound]
    rw [Int.floor_eq_iff]
    norm_num

end DriveOrganizer
